import Mathlib

/-!
Shallow embedding of the range-selection and exponential-fit pipeline of
src/operations.py (the dcct_webplot repository).

Modelling conventions:
- Python floats are modelled as rationals.
- The scipy curve_fit call is an external collaborator; it is abstracted as an
  oracle parameter (Optimizer) returning the optimized parameter vector popt
  and the convergence indicator ier.
- np.exp and math.log(2) are external numeric library values; np.exp is
  abstracted as a function parameter of fit_function, and the float constant
  math.log(2) is a parameter named log2 of the controller functions.
- The browser window object carries range_data and old_range_data; the DOM
  result areas and the hint area are the remaining mutable state.  All of this
  is gathered in WinState and threaded explicitly.
- A Python exception escaping a function is recorded in the err field of the
  call result, together with the state mutations already performed before the
  raise (Python keeps them).
- Line 161 of the source (the reset-trigger initial guess) contains a stray
  comma and is a Python SyntaxError: fake_fit_curve therefore does not parse
  and has no runtime behavior at all.  Its embedding below records the evident
  intent of that line and is used only for conditional statements about
  hypothetical invocations, never to assert behavior of the shipped function.
-/

/-- SelectionRect as stored in window.range_data and window.old_range_data:
four values (x0, x1, y0, y1). -/
abbrev Rect : Type := ℚ × ℚ × ℚ × ℚ

/-- Python int() applied to a float: truncation toward zero.  For q < 0 the
value is the negated truncation of -q, which makes the definition independent
of the integer-division rounding convention. -/
def pyInt (q : ℚ) : ℤ :=
  if q < 0 then -((-q).num / (-q).den) else q.num / q.den

/-- operations.py lines 100-120, ensure_normal_range: swap x0 and x1 when
x0 > x1 (lines 112-115), swap y0 and y1 when y0 > y1 (lines 116-119), and
return the tuple (line 120). -/
def ensure_normal_range (x0 x1 y0 y1 : ℚ) : Rect :=
  let xp := if x0 > x1 then (x1, x0) else (x0, x1)
  let yp := if y0 > y1 then (y1, y0) else (y0, y1)
  (xp.1, xp.2, yp.1, yp.2)

/-- The selection loop shared by fit_curve (lines 197-206) and fake_fit_curve
(lines 146-155): walk the paired series in order; continue when x < x0 or
x > x1; continue when y < y0 or y > y1; otherwise append the point. -/
def collect_selection (x0 x1 y0 y1 : ℚ) : List (ℚ × ℚ) → List (ℚ × ℚ)
  | [] => []
  | (x, y) :: rest =>
    if x < x0 ∨ x > x1 then collect_selection x0 x1 y0 y1 rest
    else if y < y0 ∨ y > y1 then collect_selection x0 x1 y0 y1 rest
    else (x, y) :: collect_selection x0 x1 y0 y1 rest

/-- Normalization followed by the selection loop: lines 196-206 of fit_curve
and lines 145-155 of fake_fit_curve, applied to a raw rectangle r. -/
def selected_points (xs ys : List ℚ) (r : Rect) : List (ℚ × ℚ) :=
  match ensure_normal_range r.1 r.2.1 r.2.2.1 r.2.2.2 with
  | (x0, x1, y0, y1) => collect_selection x0 x1 y0 y1 (xs.zip ys)

/-- operations.py lines 87-97, fit_function: p[0] * np.exp(-x / p[1]) + p[2].
The exponential of the external numeric library is the parameter expF.  The
result is none when an index access fails (a Python IndexError), which happens
exactly when the parameter vector has fewer than three entries. -/
def fit_function (expF : ℚ → ℚ) (x : ℚ) (p : List ℚ) : Option ℚ :=
  match p.get? 0, p.get? 1, p.get? 2 with
  | some a, some t, some c => some (a * expF (-x / t) + c)
  | _, _, _ => none

/-- The mutable browser-side state touched by the two controller functions. -/
structure WinState where
  range_data : Option Rect
  old_range_data : Option Rect
  result_area_1 : Option ℚ
  result_area_2 : Option ℚ
  result_area_3 : Option ℚ
  hint_area_visible : Bool
deriving DecidableEq, Repr

/-- Ghost record of one curve_fit invocation: the points and initial guess
passed in, and the popt and ier received back. -/
structure FitCall where
  points : List (ℚ × ℚ)
  p0 : List ℚ
  popt : List ℚ
  ier : ℤ
deriving DecidableEq, Repr

/-- Result of one controller invocation: the final state, the alert message
shown (if any), the curve_fit invocation performed (if any), and the Python
exception that escaped (if any). -/
structure CallResult where
  st : WinState
  alerted : Option String
  fitted : Option FitCall
  err : Option String
deriving DecidableEq, Repr

/-- The external optimizer (scipy curve_fit): from the selected points and the
initial guess p0 to (popt, ier). -/
abbrev Optimizer : Type := List (ℚ × ℚ) → List ℚ → List ℚ × ℤ

/-- operations.py lines 164-171 and 215-222: tau = popt[1]; the hint area is
shown when ier is not 1 and hidden otherwise; the three result areas receive
tau, tau * math.log(2) and 1.0 / tau.  When popt has no index 1 the tau
lookup raises (IndexError) before any write; when tau = 0 the third write
raises (ZeroDivisionError) after the first two writes and the hint update. -/
def publish_results (log2 : ℚ) (popt : List ℚ) (ier : ℤ) (w : WinState) :
    WinState × Option String :=
  match popt.get? 1 with
  | none => (w, some ("IndexError"))
  | some tau =>
    let w1 : WinState :=
      { w with hint_area_visible := ier != 1
               result_area_1 := some tau
               result_area_2 := some (tau * log2) }
    if tau = 0 then (w1, some ("ZeroDivisionError"))
    else ({ w1 with result_area_3 := some (1 / tau) }, none)

/-- operations.py lines 172 and 223: my_plot receives
fit_function(x_list_selection, popt[0], popt[1], popt[2]); in this model only
the index accesses can fail here (IndexError when popt has fewer than three
entries). -/
def plot_overlay_check (popt : List ℚ) : Option String :=
  match popt.get? 0, popt.get? 1, popt.get? 2 with
  | some _, some _, some _ => none
  | _, _, _ => some ("IndexError")

/-- The shared tail of both triggers: call the optimizer on the selection with
the given initial guess (lines 162 / 213), publish the results (lines 164-171
/ 215-222), then draw the overlay (lines 172 / 223). -/
def run_fit (opt : Optimizer) (log2 : ℚ) (sel : List (ℚ × ℚ)) (p0 : List ℚ)
    (w : WinState) : CallResult :=
  let res := opt sel p0
  let fc : FitCall := ⟨sel, p0, res.1, res.2⟩
  let pub := publish_results log2 res.1 res.2 w
  match pub.2 with
  | some msg => ⟨pub.1, none, some fc, some msg⟩
  | none => ⟨pub.1, none, some fc, plot_overlay_check res.1⟩

/-- operations.py lines 195-223 of fit_curve, after the rectangle has been
stored: filter the points by the normalized rectangle; on an empty selection
alert and return (lines 207-209); otherwise build the two-entry initial guess
p0 = [y_sel[0], x_sel[-1] - x_sel[0]] (line 212) and run the fit. -/
def fit_work (opt : Optimizer) (log2 : ℚ) (xs ys : List ℚ) (r : Rect)
    (w : WinState) : CallResult :=
  match selected_points xs ys r with
  | [] => ⟨w, some ("Please select a certain area containing some valid data"),
           none, none⟩
  | (fx, fy) :: rest =>
    let sel := (fx, fy) :: rest
    run_fit opt log2 sel [fy, (sel.getLastD (fx, fy)).1 - fx] w

/-- operations.py lines 175-223, fit_curve (the manual trigger).  Lines
183-185: missing range_data alerts and returns.  Lines 187-191: a missing
old_range_data is first set to None, and comparing None with the current list
is false, so only a stored rectangle equal to the current one short-circuits;
the equality models the comparison of the stored rectangle values performed by
operator.eq.  Line 192 stores the new rectangle before any filtering. -/
def fit_curve (opt : Optimizer) (log2 : ℚ) (xs ys : List ℚ) (w : WinState) :
    CallResult :=
  match w.range_data with
  | none => ⟨w, some ("Please select a certain range of data firstly"),
             none, none⟩
  | some value_list =>
    if w.old_range_data = some value_list then ⟨w, none, none, none⟩
    else
      fit_work opt log2 xs ys value_list
        { w with old_range_data := some value_list }

/-- operations.py lines 145-172 of fake_fit_curve, after the data-extent tuple
has been stored: filter the points by the normalized OLD rectangle; on an
empty selection return silently (lines 156-157); otherwise build the
three-entry initial guess p0 and run the fit.  CAUTION: the p0 line of the
source (line 161) contains a stray comma and is a Python SyntaxError, so the
source function cannot be compiled or invoked and has no runtime behavior.
The definition below records the evident three-entry intent
[y_sel[0], x_sel[-1] - x_sel[0], min(y_sel)] solely so that CONDITIONAL
statements about hypothetical invocations can be phrased; no unconditional
fact about the shipped function follows from it. -/
def fake_fit_work (opt : Optimizer) (log2 : ℚ) (xs ys : List ℚ) (r : Rect)
    (w : WinState) : CallResult :=
  match selected_points xs ys r with
  | [] => ⟨w, none, none, none⟩
  | (fx, fy) :: rest =>
    let sel := (fx, fy) :: rest
    run_fit opt log2 sel
      [fy, (sel.getLastD (fx, fy)).1 - fx, (sel.map Prod.snd).foldl min fy] w

/-- operations.py lines 123-172, fake_fit_curve (the reset trigger).  Lines
131-133: missing range_data alerts and returns; this is the only place the
current range_data is consulted.  Lines 134-135: missing old_range_data
returns silently.  Lines 136-143: the STORED rectangle is compared with the
data extents xList[0], xList[-1], yList[0], yList[-1] under int() truncation;
reading the extents raises IndexError on an empty series.  Line 144 stores the
extent tuple before any filtering.  CAUTION: because line 161 of its body is a
Python SyntaxError (see fake_fit_work), the source function does not parse and
can never actually run; this embedding of its evident intent supports only
conditional statements about hypothetical invocations. -/
def fake_fit_curve (opt : Optimizer) (log2 : ℚ) (xs ys : List ℚ)
    (w : WinState) : CallResult :=
  match w.range_data with
  | none => ⟨w, some ("Please select a certain range of data firstly"),
             none, none⟩
  | some _ =>
    match w.old_range_data with
    | none => ⟨w, none, none, none⟩
    | some old_value_list =>
      match xs.head?, xs.getLast?, ys.head?, ys.getLast? with
      | some fx0, some fx1, some fy0, some fy1 =>
        if pyInt old_value_list.1 = pyInt fx0 ∧
           pyInt old_value_list.2.1 = pyInt fx1 ∧
           pyInt old_value_list.2.2.1 = pyInt fy0 ∧
           pyInt old_value_list.2.2.2 = pyInt fy1 then
          ⟨w, none, none, none⟩
        else
          fake_fit_work opt log2 xs ys old_value_list
            { w with old_range_data := some (fx0, fx1, fy0, fy1) }
      | _, _, _, _ => ⟨w, none, none, some ("IndexError")⟩

/-- The x values of the synthetic decay series used in the spec examples. -/
def exXs : List ℚ := [0, 1, 2, 3, 4, 5]

/-- The y values of the synthetic decay series used in the spec examples. -/
def exYs : List ℚ := [100, 60, 37, 22, 13, 8]

/-- An optimizer stand-in for runs whose control flow never reaches the fit. -/
def exOpt : Optimizer := fun _ _ => ([], 0)

/-- A concrete stand-in for the float constant math.log(2). -/
def exLog2 : ℚ := 6931 / 10000

/-- C1 scenario: previously published values and a stored rectangle, with a
new selection whose y bounds [1000, 2000] exclude every sample. -/
def c1State : WinState :=
  { range_data := some (0, 5, 1000, 2000)
    old_range_data := some (0, 5, 0, 100)
    result_area_1 := some 3
    result_area_2 := some 2
    result_area_3 := some 1
    hint_area_visible := false }

/-- C5 scenario: a fresh selection with no stored previous rectangle. -/
def c5State : WinState :=
  { range_data := some (0, 5, 0, 100)
    old_range_data := none
    result_area_1 := none
    result_area_2 := none
    result_area_3 := none
    hint_area_visible := false }

/-- A two-point series for scenarios that reach the optimizer. -/
def c6Xs : List ℚ := [0, 1]

/-- The y values of the two-point series. -/
def c6Ys : List ℚ := [100, 60]

/-- C6 scenario: a fresh full-range selection over the two-point series. -/
def c6State : WinState :=
  { range_data := some (0, 1, 0, 100)
    old_range_data := none
    result_area_1 := none
    result_area_2 := none
    result_area_3 := none
    hint_area_visible := false }

/-- C6 oracle: curve_fit returns a parameter vector of the same length as the
initial guess, so the stub echoes p0 back with a success indicator. -/
def c6Opt : Optimizer := fun _ p0 => (p0, 1)

/-- C9 oracle: a fit that converges poorly (ier = 5, not success) and still
returns a parameter vector with tau = 2. -/
def c9Opt : Optimizer := fun _ _ => ([100, 2, 0], 5)

/-- C9 scenario state. -/
def c9State : WinState :=
  { range_data := some (0, 1, 0, 100)
    old_range_data := none
    result_area_1 := none
    result_area_2 := none
    result_area_3 := none
    hint_area_visible := true }

/-- C10 oracle: a successful fit with tau = 4. -/
def c10Opt : Optimizer := fun _ _ => ([90, 4, 1], 1)

/-- C10 scenario state. -/
def c10State : WinState :=
  { range_data := some (0, 1, 0, 100)
    old_range_data := none
    result_area_1 := none
    result_area_2 := none
    result_area_3 := none
    hint_area_visible := false }

/-- The selection loop is the inclusive-bounds filter over the paired series. -/
theorem collect_selection_eq_filter (x0 x1 y0 y1 : ℚ) (l : List (ℚ × ℚ)) :
    collect_selection x0 x1 y0 y1 l
      = l.filter (fun p => decide (x0 ≤ p.1 ∧ p.1 ≤ x1 ∧ y0 ≤ p.2 ∧ p.2 ≤ y1)) := by
  induction l with
  | nil => rfl
  | cons p rest ih =>
    obtain ⟨x, y⟩ := p
    by_cases hx : x < x0 ∨ x > x1
    · have hnot : ¬(x0 ≤ x ∧ x ≤ x1 ∧ y0 ≤ y ∧ y ≤ y1) := by
        rcases hx with h | h
        · exact fun hc => absurd hc.1 (not_le.mpr h)
        · exact fun hc => absurd hc.2.1 (not_le.mpr h)
      simp [collect_selection, hx, List.filter_cons, hnot, ih]
    · by_cases hy : y < y0 ∨ y > y1
      · have hnot : ¬(x0 ≤ x ∧ x ≤ x1 ∧ y0 ≤ y ∧ y ≤ y1) := by
          rcases hy with h | h
          · exact fun hc => absurd hc.2.2.1 (not_le.mpr h)
          · exact fun hc => absurd hc.2.2.2 (not_le.mpr h)
        simp [collect_selection, hx, hy, List.filter_cons, hnot, ih]
      · have hyes : x0 ≤ x ∧ x ≤ x1 ∧ y0 ≤ y ∧ y ≤ y1 := by
          rcases not_or.mp hx with ⟨h1, h2⟩
          rcases not_or.mp hy with ⟨h3, h4⟩
          exact ⟨not_lt.mp h1, not_lt.mp h2, not_lt.mp h3, not_lt.mp h4⟩
        simp [collect_selection, hx, hy, List.filter_cons, hyes, ih]

/-- C7: the selection filter includes a sample iff xmin ≤ x ≤ xmax and
ymin ≤ y ≤ ymax (inclusive on all four bounds), the selected subsequence
preserves the ordering of the series, and a rectangle containing no samples
yields the empty sequence rather than an error. -/
theorem C7_selection_filter (xs ys : List ℚ) (x0 x1 y0 y1 : ℚ) :
    (∀ x y : ℚ, (x, y) ∈ collect_selection x0 x1 y0 y1 (xs.zip ys) ↔
      ((x, y) ∈ xs.zip ys ∧ (x0 ≤ x ∧ x ≤ x1) ∧ (y0 ≤ y ∧ y ≤ y1)))
    ∧ List.Sublist (collect_selection x0 x1 y0 y1 (xs.zip ys)) (xs.zip ys)
    ∧ ((∀ p ∈ xs.zip ys, ¬(x0 ≤ p.1 ∧ p.1 ≤ x1 ∧ y0 ≤ p.2 ∧ p.2 ≤ y1)) →
      collect_selection x0 x1 y0 y1 (xs.zip ys) = []) := by
  refine ⟨?_, ?_, ?_⟩
  · intro x y
    rw [collect_selection_eq_filter, List.mem_filter]
    simp only [decide_eq_true_eq]
    tauto
  · rw [collect_selection_eq_filter]
    exact List.filter_sublist _
  · intro h
    rw [collect_selection_eq_filter]
    rw [List.filter_eq_nil_iff]
    intro a ha
    simpa using h a ha

/-- C7 witness: on the series x = [0,1,2,3], y = [100,60,37,22] with the
normalized rectangle (0, 2, 0, 100), the boundary point (2, 37) is included. -/
theorem C7_selection_filter_witness :
    ((2 : ℚ), (37 : ℚ)) ∈
      collect_selection 0 2 0 100 (([0, 1, 2, 3] : List ℚ).zip [100, 60, 37, 22]) :=
  ((C7_selection_filter [0, 1, 2, 3] [100, 60, 37, 22] 0 2 0 100).1 2 37).mpr
    (by decide)

/-- C8: ensure_normal_range returns (xmin, xmax, ymin, ymax) with xmin ≤ xmax
and ymin ≤ ymax, each axis pair is the input pair possibly swapped, it is
idempotent, and on an already-normalized input the output equals the input. -/
theorem C8_ensure_normal_range_spec (x0 x1 y0 y1 a b c d : ℚ)
    (h : ensure_normal_range x0 x1 y0 y1 = (a, b, c, d)) :
    a ≤ b ∧ c ≤ d
    ∧ ((a, b) = (x0, x1) ∨ (a, b) = (x1, x0))
    ∧ ((c, d) = (y0, y1) ∨ (c, d) = (y1, y0))
    ∧ ensure_normal_range a b c d = (a, b, c, d)
    ∧ (x0 ≤ x1 → y0 ≤ y1 → (a, b, c, d) = (x0, x1, y0, y1)) := by
  simp only [ensure_normal_range] at h
  split_ifs at h with hx hy hy
  all_goals simp only [Prod.mk.injEq] at h
  all_goals obtain ⟨rfl, rfl, rfl, rfl⟩ := h
  · exact ⟨le_of_lt hx, le_of_lt hy, Or.inr rfl, Or.inr rfl,
      by simp [ensure_normal_range, not_lt.mpr (le_of_lt hx), not_lt.mpr (le_of_lt hy)],
      fun h1 _ => absurd h1 (not_le.mpr hx)⟩
  · exact ⟨le_of_lt hx, not_lt.mp hy, Or.inr rfl, Or.inl rfl,
      by simp [ensure_normal_range, not_lt.mpr (le_of_lt hx), hy],
      fun h1 _ => absurd h1 (not_le.mpr hx)⟩
  · exact ⟨not_lt.mp hx, le_of_lt hy, Or.inl rfl, Or.inr rfl,
      by simp [ensure_normal_range, hx, not_lt.mpr (le_of_lt hy)],
      fun _ h2 => absurd h2 (not_le.mpr hy)⟩
  · exact ⟨not_lt.mp hx, not_lt.mp hy, Or.inl rfl, Or.inl rfl,
      by simp [ensure_normal_range, hx, hy], fun _ _ => rfl⟩

/-- C8 witness: normalizing the corner-swapped rectangle (3, 1, 2, 5) gives
(1, 3, 2, 5), which satisfies all the stated properties. -/
theorem C8_ensure_normal_range_witness :
    (1 : ℚ) ≤ 3 ∧ (2 : ℚ) ≤ 5
    ∧ (((1 : ℚ), (3 : ℚ)) = (3, 1) ∨ ((1 : ℚ), (3 : ℚ)) = (1, 3))
    ∧ (((2 : ℚ), (5 : ℚ)) = (2, 5) ∨ ((2 : ℚ), (5 : ℚ)) = (5, 2))
    ∧ ensure_normal_range 1 3 2 5 = (1, 3, 2, 5)
    ∧ ((3 : ℚ) ≤ 1 → (2 : ℚ) ≤ 5 → ((1 : ℚ), (3 : ℚ), (2 : ℚ), (5 : ℚ)) = (3, 1, 2, 5)) :=
  C8_ensure_normal_range_spec 3 1 2 5 1 3 2 5 (by decide)

/-- publish_results only touches the hint area and the three result areas:
the two stored rectangles pass through unchanged. -/
theorem publish_results_preserve (log2 : ℚ) (popt : List ℚ) (ier : ℤ)
    (w : WinState) :
    (publish_results log2 popt ier w).1.range_data = w.range_data
    ∧ (publish_results log2 popt ier w).1.old_range_data = w.old_range_data := by
  unfold publish_results
  cases h : popt.get? 1 with
  | none => exact ⟨rfl, rfl⟩
  | some tau =>
    dsimp only
    split <;> exact ⟨rfl, rfl⟩

/-- run_fit records the fit call, raises no alert, and its final state is the
publish_results state. -/
theorem run_fit_spec (opt : Optimizer) (log2 : ℚ) (sel : List (ℚ × ℚ))
    (p0 : List ℚ) (w : WinState) :
    (run_fit opt log2 sel p0 w).st
      = (publish_results log2 (opt sel p0).1 (opt sel p0).2 w).1
    ∧ (run_fit opt log2 sel p0 w).fitted
      = some ⟨sel, p0, (opt sel p0).1, (opt sel p0).2⟩
    ∧ (run_fit opt log2 sel p0 w).alerted = none := by
  unfold run_fit
  dsimp only
  split <;> exact ⟨rfl, rfl, rfl⟩

/-- fit_work leaves both stored rectangles unchanged. -/
theorem fit_work_preserve (opt : Optimizer) (log2 : ℚ) (xs ys : List ℚ)
    (r : Rect) (w : WinState) :
    (fit_work opt log2 xs ys r w).st.range_data = w.range_data
    ∧ (fit_work opt log2 xs ys r w).st.old_range_data = w.old_range_data := by
  unfold fit_work
  split
  · exact ⟨rfl, rfl⟩
  · dsimp only
    rw [(run_fit_spec opt log2 _ _ w).1]
    exact publish_results_preserve log2 _ _ w

/-- A manual-trigger call on a state whose stored rectangle already equals the
observed one is a no-op. -/
theorem fit_curve_unchanged (opt : Optimizer) (log2 : ℚ) (xs ys : List ℚ)
    (s : WinState) (r : Rect) (h1 : s.range_data = some r)
    (h2 : s.old_range_data = some r) :
    fit_curve opt log2 xs ys s = ⟨s, none, none, none⟩ := by
  unfold fit_curve
  rw [h1]
  dsimp only
  rw [if_pos h2]

/-- After any manual-trigger call made with an observed rectangle r, the state
holds r both as the observed and as the stored previous rectangle. -/
theorem fit_curve_after (opt : Optimizer) (log2 : ℚ) (xs ys : List ℚ)
    (w : WinState) (r : Rect) (hr : w.range_data = some r) :
    (fit_curve opt log2 xs ys w).st.range_data = some r
    ∧ (fit_curve opt log2 xs ys w).st.old_range_data = some r := by
  unfold fit_curve
  rw [hr]
  dsimp only
  by_cases h : w.old_range_data = some r
  · rw [if_pos h]
    exact ⟨hr, h⟩
  · rw [if_neg h]
    constructor
    · rw [(fit_work_preserve opt log2 xs ys r _).1]
    · rw [(fit_work_preserve opt log2 xs ys r _).2]

/-- C5: for every pair of successive manual-trigger invocations with the
observed rectangle unchanged between them, the second invocation is a no-op:
it alerts nothing, fits nothing, and returns the state of the first call
unchanged (published values and stored rectangle included). -/
theorem C5_manual_identical_noop (opt : Optimizer) (log2 : ℚ) (xs ys : List ℚ)
    (w : WinState) (r : Rect) (hr : w.range_data = some r) :
    fit_curve opt log2 xs ys ((fit_curve opt log2 xs ys w).st)
      = ⟨(fit_curve opt log2 xs ys w).st, none, none, none⟩ :=
  fit_curve_unchanged opt log2 xs ys _ r
    (fit_curve_after opt log2 xs ys w r hr).1
    (fit_curve_after opt log2 xs ys w r hr).2

/-- C5 witness: on the example series with the full-range selection, the
second of two successive manual-trigger calls is a no-op. -/
theorem C5_manual_identical_noop_witness :
    fit_curve exOpt exLog2 exXs exYs ((fit_curve exOpt exLog2 exXs exYs c5State).st)
      = ⟨(fit_curve exOpt exLog2 exXs exYs c5State).st, none, none, none⟩ :=
  C5_manual_identical_noop exOpt exLog2 exXs exYs c5State (0, 5, 0, 100) rfl

/-- C1 counterexample: on the example series, a manual trigger whose rectangle
(0, 5, 1000, 2000) differs from the stored one and selects no point raises the
no-data alert, as claimed, but it DOES alter stored state: the stored previous
rectangle differs after the call. -/
theorem C1_counterexample :
    c1State.range_data = some (0, 5, 1000, 2000)
    ∧ c1State.old_range_data ≠ c1State.range_data
    ∧ selected_points exXs exYs (0, 5, 1000, 2000) = []
    ∧ (fit_curve exOpt exLog2 exXs exYs c1State).alerted
        = some ("Please select a certain area containing some valid data")
    ∧ (fit_curve exOpt exLog2 exXs exYs c1State).st.old_range_data
        ≠ c1State.old_range_data := by
  decide

/-- C1 (amended): a manual trigger whose rectangle differs from the stored one
and whose filtered point set is empty raises the no-data alert, attempts no
fit, and leaves every published value (tau, half-life, rate, warning flag)
unchanged; the stored previous rectangle, however, has already been
overwritten with the new rectangle before the emptiness check. -/
theorem C1_amended_empty_selection (opt : Optimizer) (log2 : ℚ) (xs ys : List ℚ)
    (w : WinState) (r : Rect) (hr : w.range_data = some r)
    (hne : w.old_range_data ≠ some r) (hempty : selected_points xs ys r = []) :
    fit_curve opt log2 xs ys w
      = ⟨{ w with old_range_data := some r },
         some ("Please select a certain area containing some valid data"),
         none, none⟩ := by
  unfold fit_curve
  rw [hr]
  dsimp only
  rw [if_neg hne]
  unfold fit_work
  rw [hempty]

/-- C1 witness: the amended statement at the concrete C1 scenario. -/
theorem C1_amended_empty_selection_witness :
    fit_curve exOpt exLog2 exXs exYs c1State
      = ⟨{ c1State with old_range_data := some (0, 5, 1000, 2000) },
         some ("Please select a certain area containing some valid data"),
         none, none⟩ :=
  C1_amended_empty_selection exOpt exLog2 exXs exYs c1State (0, 5, 1000, 2000)
    rfl (by decide) (by decide)

/-- A reset-trigger call whose stored rectangle agrees with the data extents
on every integer-truncated bound is a no-op. -/
theorem fake_noop_sel (opt : Optimizer) (log2 : ℚ) (xs ys : List ℚ)
    (w : WinState) (o : Rect) (fx0 fx1 fy0 fy1 : ℚ)
    (hs : w.range_data.isSome = true)
    (hold : w.old_range_data = some o)
    (h1 : xs.head? = some fx0) (h2 : xs.getLast? = some fx1)
    (h3 : ys.head? = some fy0) (h4 : ys.getLast? = some fy1)
    (hch : pyInt o.1 = pyInt fx0 ∧ pyInt o.2.1 = pyInt fx1
        ∧ pyInt o.2.2.1 = pyInt fy0 ∧ pyInt o.2.2.2 = pyInt fy1) :
    fake_fit_curve opt log2 xs ys w = ⟨w, none, none, none⟩ := by
  obtain ⟨r, hr⟩ := Option.isSome_iff_exists.mp hs
  unfold fake_fit_curve
  rw [hr]
  dsimp only
  rw [hold]
  dsimp only
  rw [h1, h2, h3, h4]
  dsimp only
  rw [if_pos hch]

/-- A reset-trigger call that proceeds past the truncated change check runs
fake_fit_work on the STORED rectangle, with the extent tuple stored. -/
theorem fake_fit_curve_proceed (opt : Optimizer) (log2 : ℚ) (xs ys : List ℚ)
    (w : WinState) (r o : Rect) (fx0 fx1 fy0 fy1 : ℚ)
    (hr : w.range_data = some r) (hold : w.old_range_data = some o)
    (h1 : xs.head? = some fx0) (h2 : xs.getLast? = some fx1)
    (h3 : ys.head? = some fy0) (h4 : ys.getLast? = some fy1)
    (hch : ¬(pyInt o.1 = pyInt fx0 ∧ pyInt o.2.1 = pyInt fx1
        ∧ pyInt o.2.2.1 = pyInt fy0 ∧ pyInt o.2.2.2 = pyInt fy1)) :
    fake_fit_curve opt log2 xs ys w
      = fake_fit_work opt log2 xs ys o
          { w with old_range_data := some (fx0, fx1, fy0, fy1) } := by
  unfold fake_fit_curve
  rw [hr]
  dsimp only
  rw [hold]
  dsimp only
  rw [h1, h2, h3, h4]
  dsimp only
  rw [if_neg hch]

/-- C6 (code bug): the model function fit_function unconditionally reads a
third offset parameter p[2] (model A exp(-x / tau) + C), so it fails on any
two-entry parameter vector, while the manual trigger supplies exactly the
two-entry initial guess [y_sel[0], x_sel[-1] - x_sel[0]]; with an optimizer
echoing a two-entry vector back, the manual trigger ends in an IndexError at
the overlay evaluation.  The claim (and the spec) describe a two-parameter
model that never reads an offset. -/
theorem C6_fit_function_offset_bug :
    (∀ (expF : ℚ → ℚ) (x a t c : ℚ),
      fit_function expF x [a, t] = none
      ∧ fit_function expF x [a, t, c] = some (a * expF (-x / t) + c))
    ∧ Option.map FitCall.p0 (fit_curve c6Opt exLog2 c6Xs c6Ys c6State).fitted
        = some [100, 1]
    ∧ (fit_curve c6Opt exLog2 c6Xs c6Ys c6State).err = some ("IndexError") := by
  refine ⟨fun expF x a t c => ⟨rfl, rfl⟩, ?_, ?_⟩
  · simp only [fit_curve, c6State]
    rw [if_neg (by simp)]
    norm_num [fit_work, run_fit, publish_results, plot_overlay_check,
      selected_points, ensure_normal_range, collect_selection, c6Xs, c6Ys,
      c6Opt, List.getLastD]
  · simp only [fit_curve, c6State]
    rw [if_neg (by simp)]
    norm_num [fit_work, run_fit, publish_results, plot_overlay_check,
      selected_points, ensure_normal_range, collect_selection, c6Xs, c6Ys,
      c6Opt, List.getLastD]

/-- The fields published by publish_results: hint visibility tracks ier ≠ 1,
area 1 receives tau, area 2 receives tau times log 2, and area 3 receives the
rate whenever tau is nonzero. -/
theorem publish_fields (log2 : ℚ) (popt : List ℚ) (ier : ℤ) (w : WinState)
    (tau : ℚ) (ht : popt.get? 1 = some tau) :
    ((publish_results log2 popt ier w).1.hint_area_visible = true ↔ ier ≠ 1)
    ∧ (publish_results log2 popt ier w).1.result_area_1 = some tau
    ∧ (publish_results log2 popt ier w).1.result_area_2 = some (tau * log2)
    ∧ (tau ≠ 0 → (publish_results log2 popt ier w).1.result_area_3
        = some (1 / tau)) := by
  unfold publish_results
  rw [ht]
  dsimp only
  by_cases h0 : tau = 0
  · rw [if_pos h0]
    exact ⟨by simp [bne_iff_ne], rfl, rfl, fun hh => absurd h0 hh⟩
  · rw [if_neg h0]
    exact ⟨by simp [bne_iff_ne], rfl, rfl, fun _ => rfl⟩

/-- Publication through the manual trigger: if the call performed a fit whose
popt has a tau entry, the hint and the three result areas are as published. -/
theorem fit_curve_publish (opt : Optimizer) (log2 : ℚ) (xs ys : List ℚ)
    (w : WinState) (fc : FitCall) (tau : ℚ)
    (hf : (fit_curve opt log2 xs ys w).fitted = some fc)
    (ht : fc.popt.get? 1 = some tau) :
    ((fit_curve opt log2 xs ys w).st.hint_area_visible = true ↔ fc.ier ≠ 1)
    ∧ (fit_curve opt log2 xs ys w).st.result_area_1 = some tau
    ∧ (fit_curve opt log2 xs ys w).st.result_area_2 = some (tau * log2)
    ∧ (tau ≠ 0 → (fit_curve opt log2 xs ys w).st.result_area_3
        = some (1 / tau)) := by
  rcases hrd : w.range_data with _ | r
  · have hnone : (fit_curve opt log2 xs ys w).fitted = none := by
      unfold fit_curve
      rw [hrd]
    rw [hnone] at hf
    exact absurd hf (by simp)
  · by_cases hold : w.old_range_data = some r
    · rw [fit_curve_unchanged opt log2 xs ys w r hrd hold] at hf
      exact absurd hf (by simp)
    · have hpr : fit_curve opt log2 xs ys w
          = fit_work opt log2 xs ys r { w with old_range_data := some r } := by
        unfold fit_curve
        rw [hrd]
        dsimp only
        rw [if_neg hold]
      rcases hsel : selected_points xs ys r with _ | ⟨⟨px, py⟩, rest⟩
      · have hnone : (fit_work opt log2 xs ys r
            { w with old_range_data := some r }).fitted = none := by
          unfold fit_work
          rw [hsel]
        rw [hpr, hnone] at hf
        exact absurd hf (by simp)
      · have hw : fit_work opt log2 xs ys r { w with old_range_data := some r }
            = run_fit opt log2 ((px, py) :: rest)
                [py, (((px, py) :: rest).getLastD (px, py)).1 - px]
                { w with old_range_data := some r } := by
          unfold fit_work
          rw [hsel]
        rw [hpr, hw] at hf ⊢
        rw [(run_fit_spec opt log2 _ _ _).2.1] at hf
        obtain rfl := Option.some.inj hf
        rw [(run_fit_spec opt log2 _ _ _).1]
        exact publish_fields log2 _ _ _ tau ht

/-- Publication through the reset trigger: if the call performed a fit whose
popt has a tau entry, the hint and the three result areas are as published. -/
theorem fake_fit_curve_publish (opt : Optimizer) (log2 : ℚ) (xs ys : List ℚ)
    (w : WinState) (fc : FitCall) (tau : ℚ)
    (hf : (fake_fit_curve opt log2 xs ys w).fitted = some fc)
    (ht : fc.popt.get? 1 = some tau) :
    ((fake_fit_curve opt log2 xs ys w).st.hint_area_visible = true ↔ fc.ier ≠ 1)
    ∧ (fake_fit_curve opt log2 xs ys w).st.result_area_1 = some tau
    ∧ (fake_fit_curve opt log2 xs ys w).st.result_area_2 = some (tau * log2)
    ∧ (tau ≠ 0 → (fake_fit_curve opt log2 xs ys w).st.result_area_3
        = some (1 / tau)) := by
  rcases hrd : w.range_data with _ | r
  · have hnone : (fake_fit_curve opt log2 xs ys w).fitted = none := by
      unfold fake_fit_curve
      rw [hrd]
    rw [hnone] at hf
    exact absurd hf (by simp)
  · rcases hold : w.old_range_data with _ | o
    · have hnone : (fake_fit_curve opt log2 xs ys w).fitted = none := by
        unfold fake_fit_curve
        rw [hrd]
        dsimp only
        rw [hold]
      rw [hnone] at hf
      exact absurd hf (by simp)
    · rcases hx0 : xs.head? with _ | fx0
      · have hnone : (fake_fit_curve opt log2 xs ys w).fitted = none := by
          unfold fake_fit_curve
          rw [hrd]
          dsimp only
          rw [hold]
          dsimp only
          rw [hx0]
        rw [hnone] at hf
        exact absurd hf (by simp)
      · rcases hx1 : xs.getLast? with _ | fx1
        · have hnone : (fake_fit_curve opt log2 xs ys w).fitted = none := by
            unfold fake_fit_curve
            rw [hrd]
            dsimp only
            rw [hold]
            dsimp only
            rw [hx0, hx1]
          rw [hnone] at hf
          exact absurd hf (by simp)
        · rcases hy0 : ys.head? with _ | fy0
          · have hnone : (fake_fit_curve opt log2 xs ys w).fitted = none := by
              unfold fake_fit_curve
              rw [hrd]
              dsimp only
              rw [hold]
              dsimp only
              rw [hx0, hx1, hy0]
            rw [hnone] at hf
            exact absurd hf (by simp)
          · rcases hy1 : ys.getLast? with _ | fy1
            · have hnone : (fake_fit_curve opt log2 xs ys w).fitted = none := by
                unfold fake_fit_curve
                rw [hrd]
                dsimp only
                rw [hold]
                dsimp only
                rw [hx0, hx1, hy0, hy1]
              rw [hnone] at hf
              exact absurd hf (by simp)
            · by_cases hch : pyInt o.1 = pyInt fx0 ∧ pyInt o.2.1 = pyInt fx1
                  ∧ pyInt o.2.2.1 = pyInt fy0 ∧ pyInt o.2.2.2 = pyInt fy1
              · rw [fake_noop_sel opt log2 xs ys w o fx0 fx1 fy0 fy1
                  (by rw [hrd]; rfl) hold hx0 hx1 hy0 hy1 hch] at hf
                exact absurd hf (by simp)
              · have hpr := fake_fit_curve_proceed opt log2 xs ys w r o
                  fx0 fx1 fy0 fy1 hrd hold hx0 hx1 hy0 hy1 hch
                rcases hsel : selected_points xs ys o with _ | ⟨⟨px, py⟩, rest⟩
                · have hnone : (fake_fit_work opt log2 xs ys o
                      { w with old_range_data
                          := some (fx0, fx1, fy0, fy1) }).fitted = none := by
                    unfold fake_fit_work
                    rw [hsel]
                  rw [hpr, hnone] at hf
                  exact absurd hf (by simp)
                · have hw : fake_fit_work opt log2 xs ys o
                      { w with old_range_data := some (fx0, fx1, fy0, fy1) }
                      = run_fit opt log2 ((px, py) :: rest)
                          [py, (((px, py) :: rest).getLastD (px, py)).1 - px,
                            (((px, py) :: rest).map Prod.snd).foldl min py]
                          { w with old_range_data
                              := some (fx0, fx1, fy0, fy1) } := by
                    unfold fake_fit_work
                    rw [hsel]
                  rw [hpr, hw] at hf ⊢
                  rw [(run_fit_spec opt log2 _ _ _).2.1] at hf
                  obtain rfl := Option.some.inj hf
                  rw [(run_fit_spec opt log2 _ _ _).1]
                  exact publish_fields log2 _ _ _ tau ht

/-- C9: whenever a fit invocation returns from the optimizer (either
trigger), the convergence hint is made visible iff the success indicator
differs from success (ier ≠ 1); the fitted values are published either way:
tau, the half-life tau times log 2, and, for nonzero tau, the rate 1 / tau. -/
theorem C9_convergence_warning (opt : Optimizer) (log2 : ℚ) (xs ys : List ℚ)
    (w : WinState) (fc : FitCall) (tau : ℚ) :
    ((fit_curve opt log2 xs ys w).fitted = some fc →
      fc.popt.get? 1 = some tau →
      (((fit_curve opt log2 xs ys w).st.hint_area_visible = true ↔ fc.ier ≠ 1)
        ∧ (fit_curve opt log2 xs ys w).st.result_area_1 = some tau
        ∧ (fit_curve opt log2 xs ys w).st.result_area_2 = some (tau * log2)
        ∧ (tau ≠ 0 → (fit_curve opt log2 xs ys w).st.result_area_3
            = some (1 / tau))))
    ∧ ((fake_fit_curve opt log2 xs ys w).fitted = some fc →
      fc.popt.get? 1 = some tau →
      (((fake_fit_curve opt log2 xs ys w).st.hint_area_visible = true
          ↔ fc.ier ≠ 1)
        ∧ (fake_fit_curve opt log2 xs ys w).st.result_area_1 = some tau
        ∧ (fake_fit_curve opt log2 xs ys w).st.result_area_2 = some (tau * log2)
        ∧ (tau ≠ 0 → (fake_fit_curve opt log2 xs ys w).st.result_area_3
            = some (1 / tau)))) :=
  ⟨fun hf ht => fit_curve_publish opt log2 xs ys w fc tau hf ht,
   fun hf ht => fake_fit_curve_publish opt log2 xs ys w fc tau hf ht⟩

/-- C10: for every fit that publishes results (either trigger), the published
half-life value is the published tau multiplied by the log 2 constant, the
very same tau that is published in the tau area. -/
theorem C10_halflife_identity (opt : Optimizer) (log2 : ℚ) (xs ys : List ℚ)
    (w : WinState) (fc : FitCall) (tau : ℚ) :
    ((fit_curve opt log2 xs ys w).fitted = some fc →
      fc.popt.get? 1 = some tau →
      ∃ t : ℚ, (fit_curve opt log2 xs ys w).st.result_area_1 = some t
        ∧ (fit_curve opt log2 xs ys w).st.result_area_2 = some (t * log2))
    ∧ ((fake_fit_curve opt log2 xs ys w).fitted = some fc →
      fc.popt.get? 1 = some tau →
      ∃ t : ℚ, (fake_fit_curve opt log2 xs ys w).st.result_area_1 = some t
        ∧ (fake_fit_curve opt log2 xs ys w).st.result_area_2
            = some (t * log2)) :=
  ⟨fun hf ht => ⟨tau, (fit_curve_publish opt log2 xs ys w fc tau hf ht).2.1,
    (fit_curve_publish opt log2 xs ys w fc tau hf ht).2.2.1⟩,
   fun hf ht => ⟨tau,
    (fake_fit_curve_publish opt log2 xs ys w fc tau hf ht).2.1,
    (fake_fit_curve_publish opt log2 xs ys w fc tau hf ht).2.2.1⟩⟩

/-- C9 witness: on the two-point series, a fit whose optimizer reports
ier = 5 (not success) makes the hint visible and still publishes tau = 2,
the half-life 2 log 2 and the rate 1/2. -/
theorem C9_convergence_warning_witness :
    ((fit_curve c9Opt exLog2 c6Xs c6Ys c9State).st.hint_area_visible = true
      ↔ (5 : ℤ) ≠ 1)
    ∧ (fit_curve c9Opt exLog2 c6Xs c6Ys c9State).st.result_area_1 = some 2
    ∧ (fit_curve c9Opt exLog2 c6Xs c6Ys c9State).st.result_area_2
        = some (2 * exLog2)
    ∧ ((2 : ℚ) ≠ 0 →
        (fit_curve c9Opt exLog2 c6Xs c6Ys c9State).st.result_area_3
          = some (1 / 2)) :=
  (C9_convergence_warning c9Opt exLog2 c6Xs c6Ys c9State
      ⟨[(0, 100), (1, 60)], [100, 1], [100, 2, 0], 5⟩ 2).1
    (by
      simp only [fit_curve, c9State]
      rw [if_neg (by simp)]
      norm_num [fit_work, run_fit, publish_results, plot_overlay_check,
        selected_points, ensure_normal_range, collect_selection, c6Xs, c6Ys,
        c9Opt, List.getLastD])
    rfl

/-- C10 witness: on the two-point series with a successful fit returning
tau = 4, the published half-life is that same tau times the log 2 constant. -/
theorem C10_halflife_identity_witness :
    ∃ t : ℚ,
      (fit_curve c10Opt exLog2 c6Xs c6Ys c10State).st.result_area_1 = some t
      ∧ (fit_curve c10Opt exLog2 c6Xs c6Ys c10State).st.result_area_2
          = some (t * exLog2) :=
  (C10_halflife_identity c10Opt exLog2 c6Xs c6Ys c10State
      ⟨[(0, 100), (1, 60)], [100, 1], [90, 4, 1], 1⟩ 4).1
    (by
      simp only [fit_curve, c10State]
      rw [if_neg (by simp)]
      norm_num [fit_work, run_fit, publish_results, plot_overlay_check,
        selected_points, ensure_normal_range, collect_selection, c6Xs, c6Ys,
        c10Opt, List.getLastD])
    rfl
